import Mathlib

/-!
Shallow embedding of `src/aidd_codebase/framework/framework.py`
(`ModelFramework`, a `pl.LightningModule` subclass) and proofs about it.

Python dynamics modelled here:
* attribute lookup that can fail and dict indexing that can fail return
  `Except PyError _`;
* Python truthiness of `Optional` strings and lists is made explicit;
* the external classes imported by `framework.py` but whose sources are not
  part of this development (registries `ModelChoice` / `LossChoice` /
  `OptimizerChoice`, `Metric`, `Scheduler`, `LogitLoss`,
  `ParameterInitialization`, the loggers) are modelled abstractly from the
  specification, as marked on each definition;
* calls into externally injected callables and logging sinks are recorded as
  first-order call descriptions / events rather than executed.
-/

/-- Python runtime errors that the embedded methods can raise. -/
inductive PyError where
  | attributeError
  | keyError
  deriving DecidableEq, Repr

/-- Python truthiness of an `Optional[List[str]]` value:
`None` and `[]` are falsy, a non-empty list is truthy. -/
def pyTruthyStrList : Option (List String) → Bool
  | none => false
  | some l => !l.isEmpty

/-- Python truthiness of an `Optional[str]` value:
`None` and `""` are falsy, a non-empty string is truthy. -/
def pyTruthyStr : Option String → Bool
  | none => false
  | some s => !s.isEmpty

/-- Modelled from the spec: the keyword arguments a model class receives
(`model_args` in `framework.py`); the model classes themselves are behind the
`ModelChoice` registry whose source is not in `src/`, so the payload is kept
abstract as an opaque blob identified by a number. -/
structure ModelArgs where
  blob : Nat := 0
  deriving DecidableEq, Repr

/-- Modelled from the spec: a concrete model object, as produced by looking a
class up in the `ModelChoice` registry and instantiating it with
`model_args`; `initMethod` records an optional `ParameterInitialization`
pass applied to it (`initiator.py` is not in `src/`). -/
structure ModelObj where
  cls : String
  args : ModelArgs
  initMethod : Option String := none
  deriving DecidableEq, Repr

/-- Modelled from the spec: a concrete loss object, as produced by looking a
class up in the `LossChoice` registry and instantiating it with
`reduction="mean", ignore_index=0` (`loss.py` is not in `src/`). -/
structure LossObj where
  cls : String
  reduction : String
  ignoreIndex : Nat
  deriving DecidableEq, Repr

/-- Modelled from the spec: the `LogitLoss` wrapper applied around the
resolved loss object in `__init__` (`loss.py` is not in `src/`). -/
structure LogitLoss where
  inner : LossObj
  deriving DecidableEq, Repr

/-- Modelled from the spec: a concrete optimizer object, as produced by
looking a class up in the `OptimizerChoice` registry and instantiating it
with `self.model.parameters()` and the fixed hyperparameters of `__init__`
(`optimizers.py` is not in `src/`).  `paramsOf` records the model whose
parameters it optimizes. -/
structure OptObj where
  cls : String
  paramsOf : ModelObj
  lr : ℚ
  beta1 : ℚ
  beta2 : ℚ
  eps : ℚ
  deriving DecidableEq, Repr

/-- Modelled from the spec: a learning-rate scheduler object
(`scheduling.py` is not in `src/`): it can be bound to an optimizer with
`set_optimizer` and stepped with `step`. -/
structure Sched where
  boundOpt : Option OptObj := none
  steps : Nat := 0
  deriving DecidableEq, Repr

/-- Modelled from the spec: `Scheduler.set_optimizer` binds the scheduler to
the given optimizer and returns the bound scheduler. -/
def Sched.set_optimizer (sch : Sched) (opt : OptObj) : Sched :=
  { sch with boundOpt := some opt }

/-- Modelled from the spec: `Scheduler.step` advances the scheduler once. -/
def Sched.step (sch : Sched) : Sched :=
  { sch with steps := sch.steps + 1 }

/-- The dynamic content of the `self.scheduler` attribute.  `__init__`
annotates the argument as `Optional[str]` and stores it unchanged, while
other methods call `set_optimizer` / `step` on it, so at runtime the slot can
hold `None`, a plain string, or a scheduler object. -/
inductive SchedulerSlot where
  | pyNone
  | pyStr (s : String)
  | schedObj (sch : Sched)
  deriving DecidableEq, Repr

/-- Python truthiness of the `self.scheduler` slot: `None` and `""` are
falsy, non-empty strings and scheduler objects are truthy. -/
def SchedulerSlot.truthy : SchedulerSlot → Bool
  | .pyNone => false
  | .pyStr s => !s.isEmpty
  | .schedObj _ => true

/-- Whether the slot still holds a raw (unresolved) string name. -/
def SchedulerSlot.isUnresolvedName : SchedulerSlot → Bool
  | .pyStr _ => true
  | _ => false

/-- Modelled from the spec: a metric tracker (`metrics.py` is not in
`src/`); `_init_metrics` only ever constructs fresh ones with `Metric()`. -/
structure Metric where
  deriving DecidableEq, Repr

/-- A key of the per-stage metric dictionary built by `_init_metrics`:
either a plain loss-key string or the tuple `(loss_key, *self.metrics)`. -/
inductive MetricKey where
  | str (s : String)
  | tup (elems : List String)
  deriving DecidableEq, Repr

/-- A per-stage metric dictionary (a Python `dict` from keys to `Metric`). -/
abbrev MetricDict := List (MetricKey × Metric)

/-- The state of a `ModelFramework` instance: its attributes.  The three
`*_step_imported` slots hold the identity of the injected loop callable and
are absent (`none`) until `set_loop` creates them; `metrics_list` is the
`Dict[str, ...]` attribute, modelled as a partial map; `current_epoch` is the
epoch counter inherited from the `pl.LightningModule` base class. -/
structure FrameworkState where
  model : ModelObj
  loss : LogitLoss
  metrics : Option (List String)
  optimizer : OptObj
  scheduler : SchedulerSlot
  pl_loggers : Option (List String)
  metrics_list : String → Option MetricDict
  training_step_imported : Option Nat := none
  validation_step_imported : Option Nat := none
  test_step_imported : Option Nat := none
  current_epoch : Nat := 0

namespace ModelFramework

/-- Modelled from the spec: the string-keyed lookup tables (`ModelChoice`,
`LossChoice`, `OptimizerChoice`) are thin registries whose sources are not in
`src/`; `get_choice` looks a registered class up by name and raises on an
unregistered name. -/
def get_choice (table : List (String × String)) (name : String) :
    Except PyError String :=
  match table.lookup name with
  | some cls => .ok cls
  | none => .error .keyError

/-- The registries `__init__` consults; they are module-level tables living
outside `src/` and are passed in here as the environment. -/
structure Env where
  modelRegistry : List (String × String)
  lossRegistry : List (String × String)
  optRegistry : List (String × String)

/-- The constructor arguments of `ModelFramework.__init__`, with the
annotated types of the source. -/
structure InitArgs where
  model : String
  model_args : ModelArgs
  loss : String
  optimizer : String
  metrics : Option (List String) := none
  scheduler : Option String := none
  pl_loggers : Option (List String) := none
  initialize_model : Option String := none

/-- Modelled from the spec: `ParameterInitialization(method=m)
.initialize_model(model)` re-initializes the model's parameters with the
named method (`initiator.py` is not in `src/`). -/
def paramInit (method : String) (m : ModelObj) : ModelObj :=
  { m with initMethod := some method }

/-- How `__init__` stores its `scheduler: Optional[str]` argument: the value
is assigned unchanged to `self.scheduler`. -/
def schedSlotOfArg : Option String → SchedulerSlot
  | none => .pyNone
  | some s => .pyStr s

/-- `ModelFramework.__init__`: resolves the model through `ModelChoice`,
instantiates it with `model_args` and optionally re-initializes it; resolves
the loss through `LossChoice`, instantiates it with `reduction="mean",
ignore_index=0` and wraps it in `LogitLoss`; stores `metrics`; resolves the
optimizer through `OptimizerChoice` and instantiates it on
`self.model.parameters()` with `lr=0.0001, betas=(0.9, 0.98), eps=1e-9`;
stores `scheduler` and `pl_loggers` as passed; starts `metrics_list` empty.
The `*_step_imported` attributes are never created here. -/
def init (env : Env) (a : InitArgs) : Except PyError FrameworkState :=
  match get_choice env.modelRegistry a.model with
  | .error e => .error e
  | .ok modelCls =>
    let model0 : ModelObj := { cls := modelCls, args := a.model_args }
    let model :=
      if pyTruthyStr a.initialize_model then
        paramInit (a.initialize_model.getD "") model0
      else model0
    match get_choice env.lossRegistry a.loss with
    | .error e => .error e
    | .ok lossCls =>
      let loss : LogitLoss :=
        ⟨{ cls := lossCls, reduction := "mean", ignoreIndex := 0 }⟩
      match get_choice env.optRegistry a.optimizer with
      | .error e => .error e
      | .ok optCls =>
        let optimizer : OptObj :=
          { cls := optCls, paramsOf := model, lr := 1 / 10000,
            beta1 := 9 / 10, beta2 := 98 / 100, eps := 1 / 1000000000 }
        .ok
          { model := model
            loss := loss
            metrics := a.metrics
            optimizer := optimizer
            scheduler := schedSlotOfArg a.scheduler
            pl_loggers := a.pl_loggers
            metrics_list := fun _ => none }

/-- `set_loop`: creates the three `*_step_imported` attributes, all bound to
the same injected callable. -/
def set_loop (st : FrameworkState) (loop : Nat) : FrameworkState :=
  { st with
    training_step_imported := some loop
    validation_step_imported := some loop
    test_step_imported := some loop }

end ModelFramework

/-- A recorded call of an injected loop callable: which callable, on which
`self`, with which batch, batch index and `stage` keyword. -/
structure LoopCall where
  fn : Nat
  selfArg : FrameworkState
  batch : Int
  batch_idx : Int
  stage : String

namespace ModelFramework

/-- `training_step`: calls `self.training_step_imported(self, batch,
batch_idx, stage="train")`; looking the attribute up fails with
`AttributeError` when `set_loop` has never created it. -/
def training_step (st : FrameworkState) (batch : Int) (batch_idx : Int) :
    Except PyError LoopCall :=
  match st.training_step_imported with
  | some f => .ok ⟨f, st, batch, batch_idx, "train"⟩
  | none => .error .attributeError

/-- `validation_step`: calls `self.validation_step_imported(self, batch,
batch_idx, stage="validation")`. -/
def validation_step (st : FrameworkState) (batch : Int) (batch_idx : Int) :
    Except PyError LoopCall :=
  match st.validation_step_imported with
  | some f => .ok ⟨f, st, batch, batch_idx, "validation"⟩
  | none => .error .attributeError

/-- `test_step`: calls `self.test_step_imported(self, batch, batch_idx,
stage="test")`. -/
def test_step (st : FrameworkState) (batch : Int) (batch_idx : Int) :
    Except PyError LoopCall :=
  match st.test_step_imported with
  | some f => .ok ⟨f, st, batch, batch_idx, "test"⟩
  | none => .error .attributeError

/-- `forward(*args, **kwargs)` returns `self.model(*args, **kwargs)`.
Calling the model is external code (the model classes are not in `src/`), so
its semantics is passed in as `modelApply`. -/
def forward (modelApply : ModelObj → List Int → List (String × Int) → Int)
    (st : FrameworkState) (args : List Int) (kwargs : List (String × Int)) :
    Int :=
  modelApply st.model args kwargs

/-- Following the spec's words, not the source: `forward` is pure
delegation, returning exactly `self.model(*args, **kwargs)` with no
transformation of inputs or outputs. -/
def forward_spec
    (modelApply : ModelObj → List Int → List (String × Int) → Int)
    (st : FrameworkState) (args : List Int) (kwargs : List (String × Int)) :
    Int :=
  modelApply st.model args kwargs

end ModelFramework

/-- The externally observable events of one `optimizer_step` call: the base
class's optimizer step (`super().optimizer_step(...)`) and a scheduler step
(`self.scheduler.step()`). -/
inductive StepEvent where
  | baseOptimizerStep
  | schedulerStep
  deriving DecidableEq, Repr

namespace ModelFramework

/-- `optimizer_step`: first performs the base class's optimizer step, then,
if `self.scheduler` is truthy, calls `self.scheduler.step()`.  The returned
list records the performed steps in order; calling `.step()` on a slot that
holds a plain string fails with `AttributeError` after the base step. -/
def optimizer_step (st : FrameworkState) :
    List StepEvent × Except PyError FrameworkState :=
  match st.scheduler with
  | .schedObj sch =>
      ([.baseOptimizerStep, .schedulerStep],
        .ok { st with scheduler := .schedObj sch.step })
  | .pyStr s =>
      if s.isEmpty then ([.baseOptimizerStep], .ok st)
      else ([.baseOptimizerStep], .error .attributeError)
  | .pyNone => ([.baseOptimizerStep], .ok st)

/-- `configure_optimizers`: reads `optimizer = self.optimizer`; if
`self.scheduler` is truthy, re-assigns
`self.scheduler = self.scheduler.set_optimizer(optimizer)` (an
`AttributeError` when the slot holds a plain string); returns the
optimizer together with the possibly updated state. -/
def configure_optimizers (st : FrameworkState) :
    Except PyError (OptObj × FrameworkState) :=
  let optimizer := st.optimizer
  match st.scheduler with
  | .schedObj sch =>
      .ok (optimizer,
        { st with scheduler := .schedObj (sch.set_optimizer optimizer) })
  | .pyStr s =>
      if s.isEmpty then .ok (optimizer, st)
      else .error .attributeError
  | .pyNone => .ok (optimizer, st)

/-- `get_loss_key`: `"loss"` for stage `"train"`, `"val_loss"` for stage
`"validation"`, `"test_loss"` for every other stage string. -/
def get_loss_key (stage : String) : String :=
  if stage = "train" then "loss"
  else if stage = "validation" then "val_loss"
  else "test_loss"

/-- The single-element list the dict comprehension of `_init_metrics`
iterates over: `[(loss_key, *self.metrics) if self.metrics else loss_key]`. -/
def init_metric_keys (metrics : Option (List String)) (stage : String) :
    List MetricKey :=
  let loss_key := get_loss_key stage
  [if pyTruthyStrList metrics then
      .tup (loss_key :: metrics.getD [])
    else
      .str loss_key]

/-- The dictionary `_init_metrics` assigns to `self.metrics_list[stage]`:
one freshly constructed `Metric()` per key of `init_metric_keys`. -/
def fresh_metric_dict (metrics : Option (List String)) (stage : String) :
    MetricDict :=
  (init_metric_keys metrics stage).map fun k => (k, Metric.mk)

/-- `_init_metrics(stage)`: replaces `self.metrics_list[stage]` with the
freshly built per-stage dictionary. -/
def init_metrics (st : FrameworkState) (stage : String) : FrameworkState :=
  { st with
    metrics_list := fun s =>
      if s = stage then some (fresh_metric_dict st.metrics stage)
      else st.metrics_list s }

/-- `on_train_start`: `self._init_metrics(stage="train")`. -/
def on_train_start (st : FrameworkState) : FrameworkState :=
  init_metrics st "train"

/-- `on_training_epoch_start`: `self._init_metrics(stage="train")`. -/
def on_training_epoch_start (st : FrameworkState) : FrameworkState :=
  init_metrics st "train"

/-- `on_validation_epoch_start`: `self._init_metrics(stage="validation")`. -/
def on_validation_epoch_start (st : FrameworkState) : FrameworkState :=
  init_metrics st "validation"

/-- `on_test_epoch_start`: `self._init_metrics(stage="test")`. -/
def on_test_epoch_start (st : FrameworkState) : FrameworkState :=
  init_metrics st "test"

end ModelFramework

/-- A recorded call of `logger.log_scalar(metrics=..., epoch=...)` on one
external logging sink (the `LoggerPL` sinks live outside `src/`). -/
structure LogEvent where
  logger : String
  metrics : MetricDict
  epoch : Nat
  deriving DecidableEq

namespace ModelFramework

/-- `_log_epoch_metrics(metrics)`: if `self.pl_loggers` is truthy, calls
`logger.log_scalar(metrics=metrics, epoch=self.current_epoch)` on each
configured sink, in order; otherwise does nothing. -/
def log_epoch_metrics (st : FrameworkState) (metrics : MetricDict) :
    List LogEvent :=
  match st.pl_loggers with
  | some ls =>
      if ls.isEmpty then []
      else ls.map fun l => ⟨l, metrics, st.current_epoch⟩
  | none => []

/-- `training_epoch_end`: forwards `self.metrics_list["train"]` via
`_log_epoch_metrics`; the dict access raises `KeyError` when the stage has
never been initialized. -/
def training_epoch_end (st : FrameworkState) :
    Except PyError (List LogEvent) :=
  match st.metrics_list "train" with
  | some m => .ok (log_epoch_metrics st m)
  | none => .error .keyError

/-- `validation_epoch_end`: forwards `self.metrics_list["validation"]`. -/
def validation_epoch_end (st : FrameworkState) :
    Except PyError (List LogEvent) :=
  match st.metrics_list "validation" with
  | some m => .ok (log_epoch_metrics st m)
  | none => .error .keyError

/-- `test_epoch_end`: forwards `self.metrics_list["test"]`. -/
def test_epoch_end (st : FrameworkState) :
    Except PyError (List LogEvent) :=
  match st.metrics_list "test" with
  | some m => .ok (log_epoch_metrics st m)
  | none => .error .keyError

end ModelFramework

/-! ## Demonstration fixtures: a concrete environment, constructor call and
reachable states, used to evaluate the embedded methods on concrete data. -/

/-- A concrete environment: one registered model, loss and optimizer. -/
def demoEnv : ModelFramework.Env :=
  { modelRegistry := [("seq2seq", "Seq2SeqModel")]
    lossRegistry := [("crossentropy", "CrossEntropyLoss")]
    optRegistry := [("adam", "AdamOpt")] }

/-- A concrete constructor call that passes a scheduler name. -/
def demoArgs : ModelFramework.InitArgs :=
  { model := "seq2seq"
    model_args := {}
    loss := "crossentropy"
    optimizer := "adam"
    scheduler := some "noam" }

/-- The state `__init__` produces on `demoEnv` / `demoArgs`. -/
def demoInitState : FrameworkState :=
  { model := { cls := "Seq2SeqModel", args := {} }
    loss := ⟨{ cls := "CrossEntropyLoss", reduction := "mean",
               ignoreIndex := 0 }⟩
    metrics := none
    optimizer := { cls := "AdamOpt",
                   paramsOf := { cls := "Seq2SeqModel", args := {} },
                   lr := 1 / 10000, beta1 := 9 / 10, beta2 := 98 / 100,
                   eps := 1 / 1000000000 }
    scheduler := .pyStr "noam"
    pl_loggers := none
    metrics_list := fun _ => none }

/-- A concrete state whose scheduler slot holds a scheduler object and which
has configured metrics and logging sinks. -/
def demoState : FrameworkState :=
  { model := { cls := "Seq2SeqModel", args := {} }
    loss := ⟨{ cls := "CrossEntropyLoss", reduction := "mean",
               ignoreIndex := 0 }⟩
    metrics := some ["accuracy"]
    optimizer := { cls := "AdamOpt",
                   paramsOf := { cls := "Seq2SeqModel", args := {} },
                   lr := 1 / 10000, beta1 := 9 / 10, beta2 := 98 / 100,
                   eps := 1 / 1000000000 }
    scheduler := .schedObj {}
    pl_loggers := some ["tensorboard", "wandb"]
    metrics_list := fun _ => none }

/-! ## Claims -/

/-- C1: after `set_loop(f)`, the three lifecycle steps delegate to the same
injected callable: `training_step(batch, batch_idx)` returns
`f(self, batch, batch_idx, stage="train")`, `validation_step` the same call
with `stage="validation"`, and `test_step` with `stage="test"`. -/
theorem set_loop_delegates (st : FrameworkState) (f : Nat)
    (batch batch_idx : Int) :
    ModelFramework.training_step (ModelFramework.set_loop st f)
        batch batch_idx =
      .ok ⟨f, ModelFramework.set_loop st f, batch, batch_idx, "train"⟩ ∧
    ModelFramework.validation_step (ModelFramework.set_loop st f)
        batch batch_idx =
      .ok ⟨f, ModelFramework.set_loop st f, batch, batch_idx, "validation"⟩ ∧
    ModelFramework.test_step (ModelFramework.set_loop st f)
        batch batch_idx =
      .ok ⟨f, ModelFramework.set_loop st f, batch, batch_idx, "test"⟩ :=
  ⟨rfl, rfl, rfl⟩

/-- C2 counterexample: with the scheduler name `"noam"` passed to
`__init__`, the constructed state keeps `self.scheduler` as the raw string
`"noam"`; it is not resolved through any registry into a concrete object,
so one of the four is kept as an unresolved name. -/
theorem init_keeps_scheduler_name :
    (ModelFramework.init demoEnv demoArgs).map
        (fun st => st.scheduler) = .ok (.pyStr "noam") ∧
    (ModelFramework.init demoEnv demoArgs).map
        (fun st => st.scheduler.isUnresolvedName) = .ok true :=
  ⟨rfl, rfl⟩

/-- C2 (amended): `__init__` resolves the model, the loss function and the
optimizer from their string names through string-keyed registries into
concrete objects, but the scheduler argument is stored in `self.scheduler`
exactly as passed — a raw name string (or `None`) that no registry
resolves. -/
theorem init_resolves_by_lookup (env : ModelFramework.Env)
    (a : ModelFramework.InitArgs) (mc lc oc : String)
    (hm : env.modelRegistry.lookup a.model = some mc)
    (hl : env.lossRegistry.lookup a.loss = some lc)
    (ho : env.optRegistry.lookup a.optimizer = some oc) :
    (ModelFramework.init env a).map
        (fun st =>
          (st.model.cls, st.loss, st.optimizer.cls,
            st.optimizer.paramsOf, st.scheduler)) =
      .ok (mc,
        ⟨{ cls := lc, reduction := "mean", ignoreIndex := 0 }⟩,
        oc,
        (if pyTruthyStr a.initialize_model then
          ModelFramework.paramInit (a.initialize_model.getD "")
            { cls := mc, args := a.model_args }
        else { cls := mc, args := a.model_args }),
        ModelFramework.schedSlotOfArg a.scheduler) := by
  unfold ModelFramework.init ModelFramework.get_choice
  rw [hm, hl, ho]
  by_cases h : pyTruthyStr a.initialize_model <;>
    simp [h, Except.map, ModelFramework.paramInit]

/-- C2 amended-claim witness: the registry hypotheses hold for the concrete
environment and arguments, and the amended claim evaluates there. -/
theorem init_resolves_by_lookup_witness :
    demoEnv.modelRegistry.lookup demoArgs.model = some "Seq2SeqModel" ∧
    demoEnv.lossRegistry.lookup demoArgs.loss = some "CrossEntropyLoss" ∧
    demoEnv.optRegistry.lookup demoArgs.optimizer = some "AdamOpt" ∧
    (ModelFramework.init demoEnv demoArgs).map
        (fun st =>
          (st.model.cls, st.loss, st.optimizer.cls,
            st.optimizer.paramsOf, st.scheduler)) =
      .ok ("Seq2SeqModel",
        ⟨{ cls := "CrossEntropyLoss", reduction := "mean",
           ignoreIndex := 0 }⟩,
        "AdamOpt",
        (if pyTruthyStr demoArgs.initialize_model then
          ModelFramework.paramInit (demoArgs.initialize_model.getD "")
            { cls := "Seq2SeqModel", args := demoArgs.model_args }
        else { cls := "Seq2SeqModel", args := demoArgs.model_args }),
        ModelFramework.schedSlotOfArg demoArgs.scheduler) :=
  ⟨rfl, rfl, rfl,
    init_resolves_by_lookup demoEnv demoArgs "Seq2SeqModel"
      "CrossEntropyLoss" "AdamOpt" rfl rfl rfl⟩

/-- The empty string is empty: Python truthiness of `""` is falsy. -/
theorem string_isEmpty_empty : "".isEmpty = true := rfl

/-- C3 counterexample: the state `__init__` itself produces when a
scheduler name is passed has a truthy `self.scheduler` (the raw string
`"noam"`), yet `configure_optimizers` raises `AttributeError` — a Python
`str` has no `set_optimizer` — instead of always returning the optimizer
and binding the scheduler. -/
theorem configure_optimizers_raises_on_name :
    ModelFramework.init demoEnv demoArgs = .ok demoInitState ∧
    demoInitState.scheduler.truthy = true ∧
    ModelFramework.configure_optimizers demoInitState =
      .error .attributeError :=
  ⟨rfl, rfl, rfl⟩

/-- C3 (amended): `configure_optimizers` returns the optimizer stored by
`__init__` whenever `self.scheduler` is falsy (state unchanged) or holds an
actual scheduler object (first re-assigning
`self.scheduler = self.scheduler.set_optimizer(optimizer)`); but when
`self.scheduler` is a truthy raw string name — the state `__init__` itself
produces when a scheduler name is passed — the call raises `AttributeError`
instead of returning. -/
theorem configure_optimizers_cases (st : FrameworkState) :
    (∀ sch, st.scheduler = .schedObj sch →
      ModelFramework.configure_optimizers st =
        .ok (st.optimizer,
          { st with scheduler :=
              .schedObj (sch.set_optimizer st.optimizer) })) ∧
    (st.scheduler.truthy = false →
      ModelFramework.configure_optimizers st = .ok (st.optimizer, st)) ∧
    (∀ s, st.scheduler = .pyStr s → s ≠ "" →
      ModelFramework.configure_optimizers st =
        .error .attributeError) := by
  refine ⟨?_, ?_, ?_⟩
  · intro sch hs
    simp [ModelFramework.configure_optimizers, hs]
  · intro ht
    cases hsc : st.scheduler with
    | pyNone => simp [ModelFramework.configure_optimizers, hsc]
    | pyStr s =>
        rw [hsc] at ht
        have hse : s = "" := by
          simpa [SchedulerSlot.truthy, String.isEmpty_iff] using ht
        subst hse
        simp [ModelFramework.configure_optimizers, hsc, string_isEmpty_empty]
    | schedObj sch =>
        rw [hsc] at ht
        simp [SchedulerSlot.truthy] at ht
  · intro s hs hne
    simp [ModelFramework.configure_optimizers, hs, String.isEmpty_iff, hne]

/-- C3 witness: on the concrete state whose scheduler slot holds a
scheduler object, `configure_optimizers` returns the stored optimizer and
re-binds the scheduler to it; on the state `__init__` produced with a
scheduler name, it raises. -/
theorem configure_optimizers_cases_witness :
    (demoState.scheduler = .schedObj {} ∧
      ModelFramework.configure_optimizers demoState =
        .ok (demoState.optimizer,
          { demoState with
            scheduler := .schedObj (Sched.set_optimizer {} demoState.optimizer) })) ∧
    (demoInitState.scheduler = .pyStr "noam" ∧ "noam" ≠ "" ∧
      ModelFramework.configure_optimizers demoInitState =
        .error .attributeError) :=
  ⟨⟨rfl, (configure_optimizers_cases demoState).1 {} rfl⟩,
    ⟨rfl, by decide,
      (configure_optimizers_cases demoInitState).2.2 "noam" rfl
        (by decide)⟩⟩

/-- C4 counterexample: on the state `__init__` produces from a scheduler
name, `self.scheduler` is truthy (the raw string `"noam"`), yet
`optimizer_step` performs only the base step and then raises
`AttributeError` — a Python `str` has no `step` — so the scheduler is not
stepped exactly once although the slot is truthy. -/
theorem optimizer_step_raises_on_name :
    ModelFramework.init demoEnv demoArgs = .ok demoInitState ∧
    demoInitState.scheduler.truthy = true ∧
    (ModelFramework.optimizer_step demoInitState).1 =
      [.baseOptimizerStep] ∧
    (ModelFramework.optimizer_step demoInitState).2 =
      .error .attributeError :=
  ⟨rfl, rfl, rfl, rfl⟩

/-- C4 (amended): `optimizer_step` performs the base class's optimizer step
first; then, when `self.scheduler` holds a scheduler object, the scheduler
is stepped exactly once; when `self.scheduler` is falsy nothing more
happens; and when `self.scheduler` is a truthy raw string name — the state
`__init__` itself produces when a scheduler name is passed — the call
raises `AttributeError` after the base step without stepping any
scheduler. -/
theorem optimizer_step_cases (st : FrameworkState) :
    (∀ sch, st.scheduler = .schedObj sch →
      ModelFramework.optimizer_step st =
        ([.baseOptimizerStep, .schedulerStep],
          .ok { st with scheduler := .schedObj sch.step })) ∧
    (st.scheduler.truthy = false →
      ModelFramework.optimizer_step st = ([.baseOptimizerStep], .ok st)) ∧
    (∀ s, st.scheduler = .pyStr s → s ≠ "" →
      ModelFramework.optimizer_step st =
        ([.baseOptimizerStep], .error .attributeError)) := by
  refine ⟨?_, ?_, ?_⟩
  · intro sch hs
    simp [ModelFramework.optimizer_step, hs]
  · intro ht
    cases hsc : st.scheduler with
    | pyNone => simp [ModelFramework.optimizer_step, hsc]
    | pyStr s =>
        rw [hsc] at ht
        have hse : s = "" := by
          simpa [SchedulerSlot.truthy, String.isEmpty_iff] using ht
        subst hse
        simp [ModelFramework.optimizer_step, hsc, string_isEmpty_empty]
    | schedObj sch =>
        rw [hsc] at ht
        simp [SchedulerSlot.truthy] at ht
  · intro s hs hne
    simp [ModelFramework.optimizer_step, hs, String.isEmpty_iff, hne]

/-- C4 witness: on the concrete state with a scheduler object the trace is
the base step followed by exactly one scheduler step and the scheduler is
advanced once; on the state `__init__` produced with a scheduler name, only
the base step happens and the call raises. -/
theorem optimizer_step_cases_witness :
    (demoState.scheduler = .schedObj {} ∧
      ModelFramework.optimizer_step demoState =
        ([.baseOptimizerStep, .schedulerStep],
          .ok { demoState with
            scheduler := .schedObj (Sched.step {}) })) ∧
    (demoInitState.scheduler = .pyStr "noam" ∧ "noam" ≠ "" ∧
      ModelFramework.optimizer_step demoInitState =
        ([.baseOptimizerStep], .error .attributeError)) :=
  ⟨⟨rfl, (optimizer_step_cases demoState).1 {} rfl⟩,
    ⟨rfl, by decide,
      (optimizer_step_cases demoInitState).2.2 "noam" rfl (by decide)⟩⟩

/-- C5: metric bookkeeping is per stage: each epoch-start hook calls
`_init_metrics` with its own stage (`on_train_start` and
`on_training_epoch_start` with `"train"`, `on_validation_epoch_start` with
`"validation"`, `on_test_epoch_start` with `"test"`), and `_init_metrics`
replaces `metrics_list[stage]` with a dictionary of freshly constructed
`Metric` objects while leaving every other stage's entry unchanged. -/
theorem epoch_start_hooks_init_per_stage (st : FrameworkState) :
    ModelFramework.on_train_start st =
      ModelFramework.init_metrics st "train" ∧
    ModelFramework.on_training_epoch_start st =
      ModelFramework.init_metrics st "train" ∧
    ModelFramework.on_validation_epoch_start st =
      ModelFramework.init_metrics st "validation" ∧
    ModelFramework.on_test_epoch_start st =
      ModelFramework.init_metrics st "test" ∧
    ∀ stage : String,
      (ModelFramework.init_metrics st stage).metrics_list stage =
        some (ModelFramework.fresh_metric_dict st.metrics stage) ∧
      (∀ kv ∈ ModelFramework.fresh_metric_dict st.metrics stage,
        kv.2 = Metric.mk) ∧
      ∀ s, s ≠ stage →
        (ModelFramework.init_metrics st stage).metrics_list s =
          st.metrics_list s := by
  refine ⟨rfl, rfl, rfl, rfl, fun stage => ⟨?_, ?_, ?_⟩⟩
  · simp [ModelFramework.init_metrics]
  · intro kv hkv
    obtain ⟨k, m⟩ := kv
    cases m
    rfl
  · intro s hs
    simp [ModelFramework.init_metrics, hs]

/-- C5 witness: on the concrete state, initializing the `"train"` metrics
leaves the `"validation"` entry untouched and installs a fresh dictionary
for `"train"`. -/
theorem epoch_start_hooks_init_per_stage_witness :
    ModelFramework.on_train_start demoState =
      ModelFramework.init_metrics demoState "train" ∧
    (ModelFramework.init_metrics demoState "train").metrics_list "train" =
      some (ModelFramework.fresh_metric_dict demoState.metrics "train") ∧
    ("validation" ≠ "train" ∧
      (ModelFramework.init_metrics demoState "train").metrics_list
          "validation" =
        demoState.metrics_list "validation") := by
  have T := epoch_start_hooks_init_per_stage demoState
  exact ⟨T.1, (T.2.2.2.2 "train").1,
    by decide, (T.2.2.2.2 "train").2.2 "validation" (by decide)⟩

/-- C6: at the end of each training / validation / test epoch, the hook
looks the stage's collected metrics up in `metrics_list` and, via
`_log_epoch_metrics`, forwards them together with the current epoch number
to every configured sink in `pl_loggers`, in order; when `pl_loggers` is
`None` or the empty list, nothing is forwarded and no error is raised. -/
theorem epoch_end_forwards_to_sinks (st : FrameworkState) :
    (∀ m, st.metrics_list "train" = some m →
      ModelFramework.training_epoch_end st =
        .ok (ModelFramework.log_epoch_metrics st m)) ∧
    (∀ m, st.metrics_list "validation" = some m →
      ModelFramework.validation_epoch_end st =
        .ok (ModelFramework.log_epoch_metrics st m)) ∧
    (∀ m, st.metrics_list "test" = some m →
      ModelFramework.test_epoch_end st =
        .ok (ModelFramework.log_epoch_metrics st m)) ∧
    (∀ m ls, st.pl_loggers = some ls → ls ≠ [] →
      ModelFramework.log_epoch_metrics st m =
        ls.map fun l => ⟨l, m, st.current_epoch⟩) ∧
    (∀ m, st.pl_loggers = none ∨ st.pl_loggers = some ([] : List String) →
      ModelFramework.log_epoch_metrics st m = []) := by
  refine ⟨?_, ?_, ?_, ?_, ?_⟩
  · intro m hm
    simp [ModelFramework.training_epoch_end, hm]
  · intro m hm
    simp [ModelFramework.validation_epoch_end, hm]
  · intro m hm
    simp [ModelFramework.test_epoch_end, hm]
  · intro m ls hls hne
    simp [ModelFramework.log_epoch_metrics, hls, hne]
  · intro m hnone
    cases hnone with
    | inl h0 => simp [ModelFramework.log_epoch_metrics, h0]
    | inr h0 => simp [ModelFramework.log_epoch_metrics, h0]

/-- C6 witness: on the concrete state with the `"train"` metrics collected,
the training epoch-end hook succeeds and emits one event per configured
sink, carrying the metrics and the epoch number. -/
theorem epoch_end_forwards_to_sinks_witness :
    (ModelFramework.init_metrics demoState "train").metrics_list "train" =
      some (ModelFramework.fresh_metric_dict demoState.metrics "train") ∧
    ModelFramework.training_epoch_end
        (ModelFramework.init_metrics demoState "train") =
      .ok (ModelFramework.log_epoch_metrics
        (ModelFramework.init_metrics demoState "train")
        (ModelFramework.fresh_metric_dict demoState.metrics "train")) := by
  have hm : (ModelFramework.init_metrics demoState "train").metrics_list
      "train" =
      some (ModelFramework.fresh_metric_dict demoState.metrics "train") := by
    simp [ModelFramework.init_metrics, demoState]
  exact ⟨hm,
    (epoch_end_forwards_to_sinks
      (ModelFramework.init_metrics demoState "train")).1
      (ModelFramework.fresh_metric_dict demoState.metrics "train") hm⟩

/-- C7: after `_init_metrics(stage)`, the dictionary stored for that stage
has exactly one key regardless of how many metric names were configured:
the plain loss-key string when `self.metrics` is `None` or empty, and the
single tuple `(loss_key, *self.metrics)` when `self.metrics` is a non-empty
list. -/
theorem init_metrics_single_key (st : FrameworkState) (stage : String) :
    (ModelFramework.init_metrics st stage).metrics_list stage =
      some (ModelFramework.fresh_metric_dict st.metrics stage) ∧
    (ModelFramework.fresh_metric_dict st.metrics stage).length = 1 ∧
    (pyTruthyStrList st.metrics = false →
      (ModelFramework.fresh_metric_dict st.metrics stage).map Prod.fst =
        [.str (ModelFramework.get_loss_key stage)]) ∧
    (∀ ms, st.metrics = some ms → ms ≠ [] →
      (ModelFramework.fresh_metric_dict st.metrics stage).map Prod.fst =
        [.tup (ModelFramework.get_loss_key stage :: ms)]) := by
  refine ⟨?_, ?_, ?_, ?_⟩
  · simp [ModelFramework.init_metrics]
  · simp [ModelFramework.fresh_metric_dict, ModelFramework.init_metric_keys]
  · intro hf
    simp [ModelFramework.fresh_metric_dict, ModelFramework.init_metric_keys,
      hf]
  · intro ms hms hne
    have ht : pyTruthyStrList (some ms) = true := by
      cases ms with
      | nil => exact absurd rfl hne
      | cons a l => rfl
    simp [ModelFramework.fresh_metric_dict, ModelFramework.init_metric_keys,
      ht, hms]

/-- C7 witness: on the concrete state with one configured metric name, the
`"train"` dictionary has the single tuple key `("loss", "accuracy")`. -/
theorem init_metrics_single_key_witness :
    (ModelFramework.fresh_metric_dict demoState.metrics "train").length =
      1 ∧
    demoState.metrics = some ["accuracy"] ∧
    (ModelFramework.fresh_metric_dict demoState.metrics "train").map
        Prod.fst =
      [.tup (ModelFramework.get_loss_key "train" :: ["accuracy"])] := by
  have T := init_metrics_single_key demoState "train"
  exact ⟨T.2.1, rfl, T.2.2.2 ["accuracy"] rfl (by decide)⟩

/-- C8: `get_loss_key` is total on stage strings: it returns `"loss"`
exactly on `"train"`, `"val_loss"` exactly on `"validation"`, and
`"test_loss"` on every other string, recognized or not. -/
theorem get_loss_key_total (s : String) :
    (ModelFramework.get_loss_key s = "loss" ↔ s = "train") ∧
    (ModelFramework.get_loss_key s = "val_loss" ↔ s = "validation") ∧
    (s ≠ "train" → s ≠ "validation" →
      ModelFramework.get_loss_key s = "test_loss") := by
  unfold ModelFramework.get_loss_key
  by_cases h1 : s = "train"
  · subst h1
    refine ⟨by simp, ?_, by simp⟩
    constructor
    · intro h
      simp at h
    · intro h
      exact absurd h (by decide)
  · by_cases h2 : s = "validation"
    · subst h2
      refine ⟨?_, by simp, by simp⟩
      constructor
      · intro h
        rw [if_neg (by decide)] at h
        simp at h
      · intro h
        exact absurd h (by decide)
    · refine ⟨?_, ?_, fun h3 h4 => by rw [if_neg h1, if_neg h2]⟩
      · rw [if_neg h1, if_neg h2]
        constructor
        · intro h
          exact absurd h (by decide)
        · intro h
          exact absurd h h1
      · rw [if_neg h1, if_neg h2]
        constructor
        · intro h
          exact absurd h (by decide)
        · intro h
          exact absurd h h2

/-- C8 witness: on the unrecognized stage string `"predict"` the loss key
is `"test_loss"`. -/
theorem get_loss_key_total_witness :
    ModelFramework.get_loss_key "predict" = "test_loss" :=
  (get_loss_key_total "predict").2.2 (by decide) (by decide)

/-- C9: `forward` is pure delegation: it returns exactly
`self.model(*args, **kwargs)`, coinciding with the spec-side definition of
a transformation-free wrapper. -/
theorem forward_delegates
    (modelApply : ModelObj → List Int → List (String × Int) → Int)
    (st : FrameworkState) (args : List Int) (kwargs : List (String × Int)) :
    ModelFramework.forward modelApply st args kwargs =
      ModelFramework.forward_spec modelApply st args kwargs ∧
    ModelFramework.forward modelApply st args kwargs =
      modelApply st.model args kwargs :=
  ⟨rfl, rfl⟩

/-- C10: on any state `__init__` produces, the three `*_step_imported`
attributes are absent, so calling `training_step`, `validation_step` or
`test_step` before `set_loop` fails with an attribute-lookup error. -/
theorem step_before_set_loop_raises (env : ModelFramework.Env)
    (a : ModelFramework.InitArgs) (st : FrameworkState)
    (h : ModelFramework.init env a = .ok st) (batch batch_idx : Int) :
    st.training_step_imported = none ∧
    st.validation_step_imported = none ∧
    st.test_step_imported = none ∧
    ModelFramework.training_step st batch batch_idx =
      .error .attributeError ∧
    ModelFramework.validation_step st batch batch_idx =
      .error .attributeError ∧
    ModelFramework.test_step st batch batch_idx =
      .error .attributeError := by
  unfold ModelFramework.init at h
  cases hm : ModelFramework.get_choice env.modelRegistry a.model with
  | error e => rw [hm] at h; cases h
  | ok mc =>
    rw [hm] at h
    cases hl : ModelFramework.get_choice env.lossRegistry a.loss with
    | error e => rw [hl] at h; cases h
    | ok lc =>
      rw [hl] at h
      cases ho : ModelFramework.get_choice env.optRegistry a.optimizer with
      | error e => rw [ho] at h; cases h
      | ok oc =>
        rw [ho] at h
        simp only [Except.ok.injEq] at h
        subst h
        exact ⟨rfl, rfl, rfl, rfl, rfl, rfl⟩

/-- C10 witness: the concrete constructor call succeeds and its resulting
state rejects all three lifecycle steps with `AttributeError`. -/
theorem step_before_set_loop_raises_witness :
    ModelFramework.init demoEnv demoArgs = .ok demoInitState ∧
    ModelFramework.training_step demoInitState 0 0 =
      .error .attributeError ∧
    ModelFramework.validation_step demoInitState 0 0 =
      .error .attributeError ∧
    ModelFramework.test_step demoInitState 0 0 =
      .error .attributeError := by
  have hinit : ModelFramework.init demoEnv demoArgs = .ok demoInitState :=
    rfl
  have T := step_before_set_loop_raises demoEnv demoArgs demoInitState
    hinit 0 0
  exact ⟨hinit, T.2.2.2.1, T.2.2.2.2.1, T.2.2.2.2.2⟩
